import Mathlib

/-!
Verification of the automation job-orchestration core of the
`restaurant-consulting-site` repository against its natural-language
specification.

The definitions below are a shallow embedding of
`src/automation/local-control-center/api/routers/automation.py` and of the
schedule-recommendation endpoint of
`src/automation/local-control-center/api/routers/intelligence.py`.

Modelling conventions:
- Timestamps are natural numbers counting minutes since an arbitrary epoch
  (`datetime.utcnow()` is passed in explicitly as `now`).
- The Postgres `automation_jobs` table is a `List Job`; the `clients` table is
  a `List Client`.  SQL statements of the source are translated row-by-row.
- UUIDs are modelled as `Nat` identifiers; JSON documents (`config`,
  `metadata`, `result`) as opaque association lists.
- `HTTPException(status_code, detail)` becomes the `HTTPErr` structure and a
  fallible endpoint returns `Except HTTPErr …`.  An endpoint that raises
  performs no database write, no Redis push and no WebSocket broadcast, so an
  `.error` result carries no state: returning `.error e` is the model of
  "fail with e and produce no side effects".
- Redis `lpush("job_queue:<priority>", job_id)` is recorded as the pair
  `(priority, job_id)` in the returned push list; a WebSocket broadcast is
  recorded as a `BroadcastMsg`.
-/

namespace Automation

/-- `JobStatus` enum of automation.py. -/
inductive JobStatus
  | pending
  | queued
  | running
  | paused
  | completed
  | failed
  | cancelled
deriving DecidableEq, Repr

/-- `JobType` enum of automation.py. -/
inductive JobType
  | menu_build
  | menu_sync
  | item_create
  | item_update
  | modifier_sync
  | health_check
  | golden_copy
  | classification
  | report_generation
  | backup
deriving DecidableEq, Repr

/-- The string value of a `JobType` (the Python enum is a `str` enum). -/
def JobType.val : JobType → String
  | .menu_build => "menu_build"
  | .menu_sync => "menu_sync"
  | .item_create => "item_create"
  | .item_update => "item_update"
  | .modifier_sync => "modifier_sync"
  | .health_check => "health_check"
  | .golden_copy => "golden_copy"
  | .classification => "classification"
  | .report_generation => "report_generation"
  | .backup => "backup"

/-- `JobPriority` enum of automation.py (an `int` enum). -/
inductive JobPriority
  | low
  | normal
  | high
  | critical
deriving DecidableEq, Repr

/-- The integer value of a `JobPriority`. -/
def JobPriority.val : JobPriority → Nat
  | .low => 0
  | .normal => 1
  | .high => 2
  | .critical => 3

/-- Opaque JSON document (config / metadata / result payloads). -/
abbrev Config := List (String × String)

/-- A row of the `automation_jobs` table, with the fields of `JobResponse`. -/
structure Job where
  id : Nat
  client_id : Nat
  job_type : JobType
  status : JobStatus
  priority : JobPriority
  config : Config
  result : Option Config
  error : Option String
  progress : Nat
  progress_message : Option String
  scheduled_at : Option Nat
  started_at : Option Nat
  completed_at : Option Nat
  created_at : Nat
  updated_at : Nat
  retry_count : Nat
  max_retries : Nat
  retry_on_failure : Bool
  timeout_seconds : Nat
  depends_on : List Nat
  metadata : Config
deriving DecidableEq, Repr

/-- The `automation_jobs` table. -/
abbrev Db := List Job

/-- `SELECT * FROM automation_jobs WHERE id = $1`. -/
def findJob (db : Db) (jobId : Nat) : Option Job :=
  db.find? (fun j => j.id == jobId)

/-- `UPDATE automation_jobs SET … WHERE id = $1`, applied row-by-row. -/
def updateJobIn (db : Db) (jobId : Nat) (f : Job → Job) : Db :=
  db.map (fun j => if j.id == jobId then f j else j)

/-- A row of the `clients` table (the fields the automation core reads). -/
structure Client where
  id : Nat
  name : String
  portal_enabled : Bool
deriving DecidableEq, Repr

/-- `fastapi.HTTPException(status_code, detail)`. -/
structure HTTPErr where
  status : Nat
  detail : String
deriving DecidableEq, Repr

/-- Equality of endpoint outcomes is decidable, so concrete runs of the
embedded endpoints can be checked by `decide`. -/
instance {ε α : Type} [DecidableEq ε] [DecidableEq α] : DecidableEq (Except ε α) :=
  fun x y =>
    match x, y with
    | .ok a, .ok b =>
        if h : a = b then isTrue (by rw [h]) else isFalse (fun he => by
          cases he; exact h rfl)
    | .error a, .error b =>
        if h : a = b then isTrue (by rw [h]) else isFalse (fun he => by
          cases he; exact h rfl)
    | .ok _, .error _ => isFalse (fun he => by cases he)
    | .error _, .ok _ => isFalse (fun he => by cases he)

/-- The message broadcast by `ConnectionManager.broadcast_job_update`:
`{job_id, status, progress, progress_message, timestamp}`. -/
structure BroadcastMsg where
  job_id : Nat
  status : JobStatus
  progress : Nat
  progress_message : Option String
  timestamp : Nat
deriving DecidableEq, Repr

/-- `ConnectionManager`: `active_connections` maps a client-id key (a string;
`"global"` is the distinguished key) to the list of live WebSocket
connections, each identified by a `Nat`. -/
structure ConnManager where
  active_connections : List (String × List Nat)
deriving DecidableEq, Repr

/-- `self.active_connections.get(cid)` as an `Option`. -/
def lookupConns (m : ConnManager) (cid : String) : Option (List Nat) :=
  (m.active_connections.find? (fun p => p.1 == cid)).map (fun p => p.2)

/-- `ConnectionManager.broadcast_to_client`.  The Python body is

    connections = self.active_connections.get(client_id, [])
    connections.extend(self.active_connections.get("global", []))
    for connection in connections: …send…

When `client_id` is a present key, `connections` aliases the stored list, so
`extend` appends the global connections into the registry entry itself; only
when the key is absent is the default `[]` a fresh list.  The function returns
the list of connections the message is sent to, together with the manager
state after the call. -/
def broadcast_to_client (m : ConnManager) (cid : String) :
    List Nat × ConnManager :=
  match lookupConns m cid with
  | some conns =>
      let glob := (lookupConns m "global").getD []
      let extended := conns ++ glob
      (extended,
        ⟨m.active_connections.map (fun p => if p.1 == cid then (p.1, extended) else p)⟩)
  | none =>
      ((lookupConns m "global").getD [], m)

/-- Request body of `POST /automation/jobs` (`CreateJobRequest`).  A missing
`depends_on` (`None`) and an empty list behave identically in the source
(`if request.depends_on:`), so both are modelled as `[]`. -/
structure CreateJobRequest where
  client_id : Nat
  job_type : JobType
  priority : JobPriority
  config : Config
  scheduled_at : Option Nat
  depends_on : List Nat
  retry_on_failure : Bool
  max_retries : Nat
  timeout_seconds : Nat
  metadata : Config
deriving DecidableEq, Repr

/-- Detail string of the dependency-check failure in `create_job`. -/
def depNotFoundDetail (depId : Nat) : String :=
  "Dependency job " ++ toString depId ++ " not found"

/-- The dependency loop of `create_job`: the first id in `depends_on` with no
row in `automation_jobs` (the loop raises on the first missing one). -/
def firstMissingDep (db : Db) (deps : List Nat) : Option Nat :=
  deps.find? (fun d => (findJob db d).isNone)

/-- `SELECT COUNT(*) FROM automation_jobs WHERE id = ANY($1) AND status != 'completed'`. -/
def countIncomplete (db : Db) (deps : List Nat) : Nat :=
  (db.filter (fun j => deps.contains j.id && !(j.status == .completed))).length

/-- The "Determine initial status" block of `create_job`: `PENDING` unless
either all (non-empty) dependencies are completed, or there are no
dependencies and the effective `scheduled_at` is not in the future. -/
def initialStatusOf (db : Db) (now : Nat) (req : CreateJobRequest) (sched : Nat) :
    JobStatus :=
  if !req.depends_on.isEmpty then
    if countIncomplete db req.depends_on > 0 then .pending else .queued
  else if sched ≤ now then .queued
  else .pending

/-- `POST /automation/jobs` (`create_job`).  `newId` stands for the fresh
`uuid.uuid4()`.  On success returns the new table, the created job, the Redis
pushes `(priority value, job id)` and the broadcast messages emitted. -/
def create_job (db : Db) (clients : List Client) (now : Nat) (newId : Nat)
    (req : CreateJobRequest) :
    Except HTTPErr (Db × Job × List (Nat × Nat) × List BroadcastMsg) :=
  match clients.find? (fun c => c.id == req.client_id) with
  | none => .error ⟨404, "Client not found"⟩
  | some _ =>
    match firstMissingDep db req.depends_on with
    | some d => .error ⟨400, depNotFoundDetail d⟩
    | none =>
      let sched := req.scheduled_at.getD now
      let st := initialStatusOf db now req sched
      let job : Job :=
        { id := newId, client_id := req.client_id, job_type := req.job_type,
          status := st, priority := req.priority, config := req.config,
          result := none, error := none, progress := 0, progress_message := none,
          scheduled_at := some sched, started_at := none, completed_at := none,
          created_at := now, updated_at := now, retry_count := 0,
          max_retries := req.max_retries, retry_on_failure := req.retry_on_failure,
          timeout_seconds := req.timeout_seconds, depends_on := req.depends_on,
          metadata := req.metadata }
      let pushes := if st == .queued then [(req.priority.val, newId)] else []
      let msg : BroadcastMsg :=
        { job_id := newId, status := st, progress := 0, progress_message := none,
          timestamp := now }
      .ok (db ++ [job], job, pushes, [msg])

/-- Request body of `PATCH /automation/jobs/{job_id}` (`UpdateJobRequest`). -/
structure UpdateJobRequest where
  status : Option JobStatus
  priority : Option JobPriority
  config : Option Config
  scheduled_at : Option Nat
  metadata : Option Config
deriving DecidableEq, Repr

/-- `request` carries no field to update (`if not updates:` in the source). -/
def UpdateJobRequest.isEmptyReq (req : UpdateJobRequest) : Bool :=
  req.status.isNone && req.priority.isNone && req.config.isNone &&
    req.scheduled_at.isNone && req.metadata.isNone

/-- The `SET` clause built by `update_job`: each provided field is written,
`started_at`/`completed_at` are stamped on entry to `RUNNING` / a terminal
status, and `updated_at = NOW()` always. -/
def applyUpdate (now : Nat) (req : UpdateJobRequest) (j : Job) : Job :=
  let j1 :=
    match req.status with
    | some st =>
        { j with
          status := st
          started_at := if st == JobStatus.running then some now else j.started_at
          completed_at :=
            if st == JobStatus.completed || st == JobStatus.failed ||
                st == JobStatus.cancelled then
              some now
            else j.completed_at }
    | none => j
  let j2 := match req.priority with | some p => { j1 with priority := p } | none => j1
  let j3 := match req.config with | some c => { j2 with config := c } | none => j2
  let j4 :=
    match req.scheduled_at with
    | some s => { j3 with scheduled_at := some s }
    | none => j3
  let j5 := match req.metadata with | some m => { j4 with metadata := m } | none => j4
  { j5 with updated_at := now }

/-- `PATCH /automation/jobs/{job_id}` (`update_job`).  Fails 404 on an unknown
job; with an empty request returns the existing row and broadcasts nothing;
otherwise writes the provided fields and broadcasts one update. -/
def update_job (db : Db) (now : Nat) (jobId : Nat) (req : UpdateJobRequest) :
    Except HTTPErr (Db × Job × List BroadcastMsg) :=
  match findJob db jobId with
  | none => .error ⟨404, "Job not found"⟩
  | some j =>
    if req.isEmptyReq then
      .ok (db, j, [])
    else
      let j' := applyUpdate now req j
      let msg : BroadcastMsg :=
        { job_id := jobId, status := j'.status, progress := j'.progress,
          progress_message := none, timestamp := now }
      .ok (updateJobIn db jobId (applyUpdate now req), j', [msg])

/-- The status filter of `cancel_job`'s `UPDATE … WHERE … status IN
('pending', 'queued', 'running', 'paused')`. -/
def cancellable (s : JobStatus) : Bool :=
  s == .pending || s == .queued || s == .running || s == .paused

/-- Detail of the combined cancel failure (unknown id or ineligible state). -/
def cancelErr : HTTPErr := ⟨400, "Job cannot be cancelled or not found"⟩

/-- `POST /automation/jobs/{job_id}/cancel` (`cancel_job`).  The single SQL
`UPDATE … WHERE id = $1 AND status IN (…) RETURNING *` updates and returns the
row only when the job exists in a cancellable state; otherwise no row comes
back and one combined 400 error is raised. -/
def cancel_job (db : Db) (now : Nat) (jobId : Nat) :
    Except HTTPErr (Db × Job × List BroadcastMsg) :=
  match findJob db jobId with
  | some j =>
    if cancellable j.status then
      let f : Job → Job := fun jj =>
        { jj with status := .cancelled, completed_at := some now, updated_at := now }
      let msg : BroadcastMsg :=
        { job_id := jobId, status := .cancelled, progress := 0,
          progress_message := none, timestamp := now }
      .ok (updateJobIn db jobId f, f j, [msg])
    else .error cancelErr
  | none => .error cancelErr

/-- The status filter of `retry_job`'s `UPDATE … WHERE … status IN
('failed', 'cancelled')`. -/
def retryable (s : JobStatus) : Bool :=
  s == .failed || s == .cancelled

/-- Detail of the combined retry failure (unknown id or ineligible state). -/
def retryErr : HTTPErr := ⟨400, "Job cannot be retried or not found"⟩

/-- The `SET` clause of `retry_job`'s `UPDATE`. -/
def retryUpdate (now : Nat) (j : Job) : Job :=
  { j with
    status := .queued
    started_at := none
    completed_at := none
    error := none
    result := none
    retry_count := j.retry_count + 1
    updated_at := now }

/-- `POST /automation/jobs/{job_id}/retry` (`retry_job`).  The SQL `UPDATE …
WHERE id = $1 AND status IN ('failed', 'cancelled') RETURNING *` updates and
returns the row only when the job exists in a retryable state; the updated row
is re-enqueued via `lpush("job_queue:" + row.priority, job_id)` and one update
is broadcast; otherwise one combined 400 error is raised. -/
def retry_job (db : Db) (now : Nat) (jobId : Nat) :
    Except HTTPErr (Db × Job × List (Nat × Nat) × List BroadcastMsg) :=
  match findJob db jobId with
  | some j =>
    if retryable j.status then
      let j' := retryUpdate now j
      let msg : BroadcastMsg :=
        { job_id := jobId, status := .queued, progress := 0,
          progress_message := none, timestamp := now }
      .ok (updateJobIn db jobId (retryUpdate now), j', [(j'.priority.val, jobId)], [msg])
    else .error retryErr
  | none => .error retryErr

/-- Modelled from the spec: the lifecycle edge set of §4.1 (PENDING→QUEUED,
QUEUED→RUNNING, RUNNING→COMPLETED|FAILED|PAUSED,
{PENDING,QUEUED,RUNNING,PAUSED}→CANCELLED, {FAILED,CANCELLED}→QUEUED).  The
source has no central transition validator; this definition exists only to
compare the source's behaviour against the spec's edge set. -/
def allowedEdge : JobStatus → JobStatus → Bool
  | .pending, .queued => true
  | .queued, .running => true
  | .running, .completed => true
  | .running, .failed => true
  | .running, .paused => true
  | .pending, .cancelled => true
  | .queued, .cancelled => true
  | .running, .cancelled => true
  | .paused, .cancelled => true
  | .failed, .queued => true
  | .cancelled, .queued => true
  | _, _ => false

/-- The status of the job returned by a successful job-returning endpoint. -/
def okJobStatus (r : Except HTTPErr (Db × Job × List BroadcastMsg)) :
    Option JobStatus :=
  match r with
  | .ok (_, j, _) => some j.status
  | .error _ => none

/-- The retry_count of the job returned by a successful queue-touching
endpoint (`create_job` / `retry_job` result shape). -/
def okRetryCount (r : Except HTTPErr (Db × Job × List (Nat × Nat) × List BroadcastMsg)) :
    Option Nat :=
  match r with
  | .ok (_, j, _, _) => some j.retry_count
  | .error _ => none

/-- The status of the job created by a successful `create_job`. -/
def okCreatedStatus
    (r : Except HTTPErr (Db × Job × List (Nat × Nat) × List BroadcastMsg)) :
    Option JobStatus :=
  match r with
  | .ok (_, j, _, _) => some j.status
  | .error _ => none

/-! ### Route registration order (FastAPI/Starlette dispatch)

Starlette resolves a request against the app's routes in registration order:
the first route whose path pattern matches the request path wins, and the
endpoint's typed path parameters are then validated (a parameter annotated
`uuid.UUID` that does not parse as a UUID yields a 422 validation error
before the endpoint body runs). -/

/-- One segment of a route path: a literal, or a `{param}` capture. -/
inductive Seg
  | lit (s : String)
  | param
deriving DecidableEq, Repr

/-- Whether one route segment matches one path segment. -/
def segMatches : Seg → String → Bool
  | .lit s, x => s == x
  | .param, _ => true

/-- Whether a route pattern matches a request path, segment by segment. -/
def pathMatches : List Seg → List String → Bool
  | [], [] => true
  | p :: ps, x :: xs => segMatches p x && pathMatches ps xs
  | _, _ => false

/-- The GET routes of the automation router (mounted at prefix
`/automation`) in registration order in automation.py: `list_jobs`
(line 200), `get_job` (line 253), `get_job_stats` (line 455),
`list_browser_sessions` (line 505). -/
def automationGetRoutes : List (List Seg × String) :=
  [ ([Seg.lit "automation", Seg.lit "jobs"], "list_jobs"),
    ([Seg.lit "automation", Seg.lit "jobs", Seg.param], "get_job"),
    ([Seg.lit "automation", Seg.lit "jobs", Seg.lit "stats"], "get_job_stats"),
    ([Seg.lit "automation", Seg.lit "sessions"], "list_browser_sessions") ]

/-- First-match route resolution over an ordered route table. -/
def resolveRoute (routes : List (List Seg × String)) (path : List String) :
    Option String :=
  (routes.find? (fun r => pathMatches r.1 path)).map (fun r => r.2)

/-- A hexadecimal digit. -/
def isHexDigit (c : Char) : Bool :=
  c.isDigit || ('a' ≤ c && c ≤ 'f') || ('A' ≤ c && c ≤ 'F')

/-- Canonical 8-4-4-4-12 hexadecimal UUID format (36 characters, dashes at
positions 8, 13, 18 and 23, hex digits elsewhere), the form a path parameter
annotated `uuid.UUID` must take to pass validation. -/
def isUUIDString (s : String) : Bool :=
  let cs := s.toList
  cs.length == 36 &&
    (List.range 36).all (fun i =>
      if i = 8 || i = 13 || i = 18 || i = 23 then cs.getD i ' ' == '-'
      else isHexDigit (cs.getD i ' '))

/-- Outcome of dispatching a GET request to the automation router. -/
inductive DispatchOutcome
  | handler (name : String)
  | validationError
  | noRoute
deriving DecidableEq, Repr

/-- Dispatch of a GET request: first-match route resolution, then UUID
validation of `get_job`'s `job_id` path parameter (its third segment). -/
def dispatchGet (path : List String) : DispatchOutcome :=
  match resolveRoute automationGetRoutes path with
  | some h =>
      if h == "get_job" then
        match path with
        | [_, _, v] =>
            if isUUIDString v then .handler "get_job" else .validationError
        | _ => .handler "get_job"
      else .handler h
  | none => .noRoute

/-! ### Schedule recommendations (intelligence.py, `get_schedule_recommendations`)

Times stay in minutes; `date_trunc('hour', t)` becomes `hourFloor`, and
`next_run.replace(minute=0, second=0)` is the same hour truncation (the model
has no sub-minute precision). -/
namespace Intelligence

/-- `date_trunc('hour', t)` in minutes. -/
def hourFloor (t : Nat) : Nat := 60 * (t / 60)

/-- The `intervals` dict of `get_schedule_recommendations` with its
`.get(jt, timedelta(hours=24))` default, in minutes. -/
def intervalFor (jt : String) : Nat :=
  if jt == "health_check" then 360
  else if jt == "menu_sync" then 1440
  else if jt == "golden_copy" then 1440
  else if jt == "backup" then 720
  else 1440

/-- The `busy_periods` query: hours between `now` and `endT` (inclusive, SQL
`BETWEEN`) holding strictly more than 3 jobs by `scheduled_at`, grouped by
hour. -/
def busyHours (db : Db) (now endT : Nat) : List Nat :=
  let hs := ((db.filterMap (fun j => j.scheduled_at)).filter
      (fun t => decide (now ≤ t) && decide (t ≤ endT))).map hourFloor
  hs.dedup.filter (fun h => 3 < hs.count h)

/-- The `last_jobs` query: `MAX(completed_at)` of this client's completed jobs
of string type `jt` (`None` when the group is empty or has no timestamps). -/
def lastRunTime (db : Db) (cid : Nat) (jt : String) : Option Nat :=
  (db.filterMap (fun j =>
    if j.client_id == cid && j.status == JobStatus.completed &&
        j.job_type.val == jt then
      j.completed_at
    else none)).max?

/-- The candidate `next_run` before busy-hour avoidance: `last_run + interval`,
clamped to `now + 30` minutes when that lies strictly in the past, and
`now + 1h` when there is no prior completed run. -/
def nextRunCandidate (now : Nat) (lastRun : Option Nat) (iv : Nat) : Nat :=
  match lastRun with
  | some lr => if lr + iv < now then now + 30 else lr + iv
  | none => now + 60

/-- The `while next_run.replace(minute=0, second=0) in busy_hours: next_run +=
1h` loop, with explicit fuel.  Successive probes visit strictly increasing
hours, so `busy.length + 1` probes always reach a non-busy hour; with that
fuel this equals the unbounded loop. -/
def walkToFree (busy : List Nat) : Nat → Nat → Nat
  | 0, t => t
  | fuel + 1, t =>
      if busy.contains (hourFloor t) then walkToFree busy fuel (t + 60) else t

/-- `JobScheduleRecommendation` response model (intelligence.py). -/
structure JobScheduleRecommendation where
  job_type : String
  client_id : Nat
  recommended_time : Nat
  reason : String
  priority : Nat
  conflict_score : Rat
deriving DecidableEq, Repr

/-- The body of the inner `for jt in job_types_to_schedule` loop: candidate
time, busy-hour walk, conflict score `|{busy hours within ±1h}| / max(|busy|,
1)` and priority `2` when overdue by more than 1.5× the interval. -/
def mkRecommendation (busy : List Nat) (now : Nat) (cid : Nat) (jt : String)
    (lastRun : Option Nat) : JobScheduleRecommendation :=
  let iv := intervalFor jt
  let nr := walkToFree busy (busy.length + 1) (nextRunCandidate now lastRun iv)
  let conflicts :=
    (busy.filter (fun b => ((b : Int) - (nr : Int)).natAbs < 60)).length
  { job_type := jt
    client_id := cid
    recommended_time := nr
    reason := "Optimal window based on historical patterns and current queue load"
    priority :=
      match lastRun with
      | some lr => if ((now : Int) - (lr : Int)) * 2 > (iv : Int) * 3 then 2 else 1
      | none => 1
    conflict_score := (conflicts : Rat) / ((max busy.length 1 : Nat) : Rat) }

/-- `job_types_to_schedule`: the requested type alone, else the three common
types. -/
def typesToSchedule (jobTypeFilter : Option String) : List String :=
  match jobTypeFilter with
  | some jt => [jt]
  | none => ["health_check", "menu_sync", "golden_copy"]

/-- Client selection: by id when `client_id` is given, else the first 50
portal-enabled clients. -/
def selectedClients (clients : List Client) (clientFilter : Option Nat) :
    List Client :=
  match clientFilter with
  | some c => clients.filter (fun cl => cl.id == c)
  | none => (clients.filter (fun cl => cl.portal_enabled)).take 50

/-- The recommendation list of `get_schedule_recommendations` before the final
sort: one entry per selected client and scheduled job-type. -/
def buildRecommendations (db : Db) (clients : List Client)
    (clientFilter : Option Nat) (jobTypeFilter : Option String)
    (hoursAhead : Nat) (now : Nat) : List JobScheduleRecommendation :=
  (selectedClients clients clientFilter).flatMap (fun c =>
    let busy := busyHours db now (now + 60 * hoursAhead)
    (typesToSchedule jobTypeFilter).map (fun jt =>
      mkRecommendation busy now c.id jt (lastRunTime db c.id jt)))

/-- `GET /intelligence/schedule/recommendations`: the built list sorted by
`(-priority, conflict_score)`. -/
def get_schedule_recommendations (db : Db) (clients : List Client)
    (clientFilter : Option Nat) (jobTypeFilter : Option String)
    (hoursAhead : Nat) (now : Nat) : List JobScheduleRecommendation :=
  (buildRecommendations db clients clientFilter jobTypeFilter hoursAhead now).mergeSort
    (fun a b => b.priority < a.priority ||
      (a.priority == b.priority && decide (a.conflict_score ≤ b.conflict_score)))

end Intelligence

/-! ### Concrete instances used to evaluate the endpoints -/

/-- A minimal `automation_jobs` row with the given id, client and status. -/
def sampleJob (i cid : Nat) (st : JobStatus) : Job :=
  { id := i, client_id := cid, job_type := JobType.menu_sync, status := st,
    priority := JobPriority.normal, config := [], result := none, error := none,
    progress := 0, progress_message := none, scheduled_at := some 0,
    started_at := none, completed_at := none, created_at := 0, updated_at := 0,
    retry_count := 0, max_retries := 3, retry_on_failure := true,
    timeout_seconds := 3600, depends_on := [], metadata := [] }

/-- A minimal creation request with the given client, schedule and
dependencies. -/
def mkCreateReq (cid : Nat) (sched : Option Nat) (deps : List Nat) :
    CreateJobRequest :=
  { client_id := cid, job_type := JobType.menu_sync,
    priority := JobPriority.normal, config := [], scheduled_at := sched,
    depends_on := deps, retry_on_failure := true, max_retries := 3,
    timeout_seconds := 3600, metadata := [] }

/-- An update request that only requests a status change. -/
def statusOnlyReq (st : JobStatus) : UpdateJobRequest :=
  { status := some st, priority := none, config := none, scheduled_at := none,
    metadata := none }

/-- A registry with one connection subscribed to client `"c"` and one global
connection. -/
def twoSubscriberManager : ConnManager :=
  ⟨[("c", [1]), ("global", [2])]⟩

/-- A completed `health_check` job for client 1 whose run finished at minute
99000, used to evaluate the schedule recommender. -/
def staleHealthCheckJob : Job :=
  { sampleJob 1 1 JobStatus.completed with
    job_type := JobType.health_check
    completed_at := some 99000 }

/-! ## Theorems -/

/-- C1.  The spec requires `update` to apply a requested status only along a
§4.1 lifecycle edge and to fail with InvalidTransition otherwise.  The code
performs no transition validation: COMPLETED→RUNNING is outside the edge set,
yet `update_job` on a COMPLETED job with requested status RUNNING succeeds and
returns the job with status RUNNING (no error of any kind is raised). -/
theorem C1_update_applies_disallowed_transition :
    allowedEdge JobStatus.completed JobStatus.running = false ∧
    okJobStatus (update_job [sampleJob 1 1 JobStatus.completed] 100 1
      (statusOnlyReq JobStatus.running)) = some JobStatus.running := by
  decide

/-- C2.  The spec requires `retry` to be rejected with RetriesExhausted once
`retry_count == max_retries`.  The code checks only the status: a FAILED job
with `retry_count = 3 = max_retries` is retried successfully and its
retry_count becomes 4, exceeding max_retries. -/
theorem C2_retry_exceeds_budget :
    (sampleJob 1 1 JobStatus.failed).max_retries = 3 ∧
    okRetryCount (retry_job
      [{ sampleJob 1 1 JobStatus.failed with retry_count := 3 }] 100 1) =
      some 4 := by
  decide

/-- C4.  The spec says broadcasting delivers the event exactly once to each
client and global subscriber and does not modify the subscriber registry.  In
the code `connections = active_connections.get(client_id, [])` aliases the
stored list and `extend` mutates it: starting from one subscriber of client
`"c"` and one global subscriber, a broadcast to `"c"` sends to both, but the
registry afterwards differs from the original (the global connection has been
appended to `"c"`'s entry), and a second broadcast to `"c"` sends to the
global subscriber twice. -/
theorem C4_broadcast_mutates_registry :
    (broadcast_to_client twoSubscriberManager "c").1 = [1, 2] ∧
    (broadcast_to_client twoSubscriberManager "c").2 ≠ twoSubscriberManager ∧
    (broadcast_to_client (broadcast_to_client twoSubscriberManager "c").2
      "c").1 = [1, 2, 2] := by
  decide

/-- C3 counterexample.  The claim says the initial status is QUEUED exactly
when all dependencies are COMPLETED and `scheduled_at ≤ now`.  With one
COMPLETED dependency and `scheduled_at = 110` strictly after `now = 100`, the
code still creates the job QUEUED (the dependency branch never consults
`scheduled_at`), while the claim demands PENDING. -/
theorem C3_counterexample :
    okCreatedStatus (create_job [sampleJob 1 1 JobStatus.completed]
        [⟨1, "acme", true⟩] 100 2 (mkCreateReq 1 (some 110) [1])) =
      some JobStatus.queued ∧
    (sampleJob 1 1 JobStatus.completed).status = JobStatus.completed ∧
    ¬(110 ≤ 100) := by
  decide

/-- C7 counterexample.  The claim says an unknown dependency id rejects
creation with a NotFound error (HTTP 404, as the code itself uses for its
not-found failures).  With a known client and the unknown dependency id 7, the
code rejects with status 400, not 404. -/
theorem C7_counterexample :
    create_job [] [⟨1, "acme", true⟩] 100 2 (mkCreateReq 1 none [7]) =
      Except.error ⟨400, "Dependency job 7 not found"⟩ ∧
    (400 : Nat) ≠ 404 := by
  decide

/-- C8 counterexample.  The claim says the candidate next-run time equals the
last COMPLETED run plus the type-specific interval (here health_check:
6h = 360 min).  For a last run at 99000 and `now = 100000`, that candidate is
99360, lies in the past, and no hour is busy, so the claim predicts
recommendation 99360; the code clamps past candidates to `now + 30` and
recommends 100030 instead. -/
theorem C8_counterexample :
    (Intelligence.buildRecommendations [staleHealthCheckJob]
        [⟨1, "acme", true⟩] (some 1) (some "health_check") 24 100000).map
      (fun r => r.recommended_time) = [100030] ∧
    Intelligence.lastRunTime [staleHealthCheckJob] 1 "health_check" =
      some 99000 ∧
    Intelligence.busyHours [staleHealthCheckJob] 100000 (100000 + 60 * 24) =
      [] ∧
    99000 + Intelligence.intervalFor "health_check" = 99360 ∧
    (100030 : Nat) ≠ 99360 := by
  decide

/-- C5.  For any stored job, `cancel_job` succeeds exactly when the status is
in {PENDING, QUEUED, RUNNING, PAUSED} (`cancellable`), setting it to
CANCELLED (stamping `completed_at`/`updated_at`) and broadcasting once; from
any other (terminal) status it fails with the Conflict error (the combined
400), and the `.error` result carries no database write and no broadcast. -/
theorem C5_cancel_iff_eligible (db : Db) (now jobId : Nat) (j : Job)
    (hfind : findJob db jobId = some j) :
    (cancellable j.status = true →
      cancel_job db now jobId = Except.ok
        (updateJobIn db jobId (fun jj =>
          { jj with
            status := JobStatus.cancelled
            completed_at := some now
            updated_at := now }),
         { j with
           status := JobStatus.cancelled
           completed_at := some now
           updated_at := now },
         [{ job_id := jobId, status := JobStatus.cancelled, progress := 0,
            progress_message := none, timestamp := now }])) ∧
    (cancellable j.status = false →
      cancel_job db now jobId = Except.error cancelErr) := by
  constructor
  · intro h
    simp only [cancel_job, hfind]
    simp [h]
  · intro h
    simp only [cancel_job, hfind]
    simp [h]

/-- Witness for C5: a concrete RUNNING job is cancelled, and its concrete
COMPLETED twin is covered by the Conflict branch of the same theorem. -/
theorem C5_witness :
    cancel_job [sampleJob 1 1 JobStatus.running] 7 1 = Except.ok
      (updateJobIn [sampleJob 1 1 JobStatus.running] 1 (fun jj =>
        { jj with
          status := JobStatus.cancelled
          completed_at := some 7
          updated_at := 7 }),
       { sampleJob 1 1 JobStatus.running with
         status := JobStatus.cancelled
         completed_at := some 7
         updated_at := 7 },
       [{ job_id := 1, status := JobStatus.cancelled, progress := 0,
          progress_message := none, timestamp := 7 }]) ∧
    cancel_job [sampleJob 1 1 JobStatus.completed] 7 1 =
      Except.error cancelErr :=
  ⟨(C5_cancel_iff_eligible [sampleJob 1 1 JobStatus.running] 7 1
      (sampleJob 1 1 JobStatus.running) rfl).1 rfl,
   (C5_cancel_iff_eligible [sampleJob 1 1 JobStatus.completed] 7 1
      (sampleJob 1 1 JobStatus.completed) rfl).2 rfl⟩

/-- C6.  A successful retry of a stored FAILED or CANCELLED job increments
retry_count by exactly one, clears error, result, started_at and completed_at,
sets status to QUEUED, stamps only updated_at (the record-update form leaves
every other field unchanged), re-enqueues the job id under the job's current
priority value, and broadcasts once. -/
theorem C6_retry_success_effects (db : Db) (now jobId : Nat) (j : Job)
    (hfind : findJob db jobId = some j) (hr : retryable j.status = true) :
    retry_job db now jobId = Except.ok
      (updateJobIn db jobId (retryUpdate now),
       { j with
         status := JobStatus.queued
         started_at := none
         completed_at := none
         error := none
         result := none
         retry_count := j.retry_count + 1
         updated_at := now },
       [(j.priority.val, jobId)],
       [{ job_id := jobId, status := JobStatus.queued, progress := 0,
          progress_message := none, timestamp := now }]) := by
  simp only [retry_job, hfind]
  simp [hr, retryUpdate]

/-- Witness for C6: a concrete FAILED job with retry_count 0 is requeued with
retry_count 1 under priority value 1 (NORMAL). -/
theorem C6_witness :
    retry_job [sampleJob 1 1 JobStatus.failed] 9 1 = Except.ok
      (updateJobIn [sampleJob 1 1 JobStatus.failed] 1 (retryUpdate 9),
       { sampleJob 1 1 JobStatus.failed with
         status := JobStatus.queued
         started_at := none
         completed_at := none
         error := none
         result := none
         retry_count := 1
         updated_at := 9 },
       [(1, 1)],
       [{ job_id := 1, status := JobStatus.queued, progress := 0,
          progress_message := none, timestamp := 9 }]) :=
  C6_retry_success_effects [sampleJob 1 1 JobStatus.failed] 9 1
    (sampleJob 1 1 JobStatus.failed) rfl rfl

/-- C10.  For both `cancel_job` and `retry_job`, an unknown job id and a known
job in an ineligible state produce the identical single 400 failure
(`cancelErr` resp. `retryErr`, each one combined message), so the public
interface cannot distinguish NotFound from Conflict. -/
theorem C10_notfound_conflict_conflated (db : Db) (now jobId : Nat) :
    ((findJob db jobId = none ∨
        ∃ j, findJob db jobId = some j ∧ cancellable j.status = false) →
      cancel_job db now jobId = Except.error cancelErr) ∧
    ((findJob db jobId = none ∨
        ∃ j, findJob db jobId = some j ∧ retryable j.status = false) →
      retry_job db now jobId = Except.error retryErr) ∧
    cancelErr.status = 400 ∧ retryErr.status = 400 := by
  refine ⟨?_, ?_, rfl, rfl⟩
  · rintro (h | ⟨j, hj, hc⟩)
    · simp [cancel_job, h]
    · simp [cancel_job, hj, hc]
  · rintro (h | ⟨j, hj, hr⟩)
    · simp [retry_job, h]
    · simp [retry_job, hj, hr]

/-- Witness for C10: on the empty table (job id 1 unknown), both endpoints
return their combined 400 error. -/
theorem C10_witness :
    cancel_job [] 0 1 = Except.error cancelErr ∧
    retry_job [] 0 1 = Except.error retryErr :=
  ⟨(C10_notfound_conflict_conflated [] 0 1).1 (Or.inl rfl),
   (C10_notfound_conflict_conflated [] 0 1).2.1 (Or.inl rfl)⟩

/-- The SQL incomplete-dependency count is zero exactly when every stored row
listed in `deps` is COMPLETED. -/
theorem countIncomplete_eq_zero_iff (db : Db) (deps : List Nat) :
    countIncomplete db deps = 0 ↔
      ∀ jd ∈ db, jd.id ∈ deps → jd.status = JobStatus.completed := by
  unfold countIncomplete
  rw [List.length_eq_zero, List.filter_eq_nil_iff]
  constructor
  · intro h jd hjd hid
    have h2 := h jd hjd
    simp only [Bool.and_eq_true, Bool.not_eq_true', beq_iff_eq, not_and,
      List.elem_iff] at h2
    have h3 := h2 hid
    simpa using h3
  · intro h jd hjd
    simp only [Bool.and_eq_true, Bool.not_eq_true', beq_iff_eq, not_and,
      List.elem_iff]
    intro hid
    simp [h jd hjd hid]

/-- C3 (amended).  For a creation request with a known client and no missing
dependency, the initial status is QUEUED exactly when either `depends_on` is
non-empty and every stored dependency row is COMPLETED (regardless of
`scheduled_at`), or `depends_on` is empty and the effective `scheduled_at`
is ≤ now; in every other case it is PENDING. -/
theorem C3_amended_initial_status (db : Db) (clients : List Client)
    (now newId : Nat) (req : CreateJobRequest) (c : Client)
    (hc : clients.find? (fun cl => cl.id == req.client_id) = some c)
    (hd : firstMissingDep db req.depends_on = none) :
    ∃ st, okCreatedStatus (create_job db clients now newId req) = some st ∧
      (st = JobStatus.queued ∨ st = JobStatus.pending) ∧
      (st = JobStatus.queued ↔
        ((req.depends_on ≠ [] ∧
            ∀ jd ∈ db, jd.id ∈ req.depends_on →
              jd.status = JobStatus.completed) ∨
         (req.depends_on = [] ∧ req.scheduled_at.getD now ≤ now))) := by
  refine ⟨initialStatusOf db now req (req.scheduled_at.getD now), ?_, ?_, ?_⟩
  · simp only [okCreatedStatus, create_job, hc, hd]
  · unfold initialStatusOf
    by_cases h1 : req.depends_on.isEmpty
    · simp only [h1, Bool.not_true, Bool.false_eq_true, if_false]
      by_cases h2 : req.scheduled_at.getD now ≤ now <;> simp [h2]
    · simp only [h1, Bool.not_false]
      by_cases h2 : countIncomplete db req.depends_on > 0 <;> simp [h2]
  · have hne : req.depends_on.isEmpty = true ↔ req.depends_on = [] :=
      List.isEmpty_iff
    unfold initialStatusOf
    by_cases h1 : req.depends_on.isEmpty
    · have h1' : req.depends_on = [] := hne.mp h1
      simp only [h1, Bool.not_true, Bool.false_eq_true, if_false]
      by_cases h2 : req.scheduled_at.getD now ≤ now
      · simp [h2, h1']
      · simp [h2, h1']
    · have h1' : req.depends_on ≠ [] := fun he => h1 (hne.mpr he)
      simp only [h1, Bool.not_false, if_true]
      by_cases h2 : countIncomplete db req.depends_on > 0
      · have h2' : countIncomplete db req.depends_on ≠ 0 := by omega
        simp only [h2, if_true]
        constructor
        · intro h; cases h
        · rintro (⟨_, hall⟩ | ⟨he, _⟩)
          · exact absurd ((countIncomplete_eq_zero_iff db req.depends_on).mpr
              hall) h2'
          · exact absurd he h1'
      · have h2' : countIncomplete db req.depends_on = 0 := by omega
        simp only [h2, if_false]
        constructor
        · intro _
          exact Or.inl ⟨h1', (countIncomplete_eq_zero_iff db req.depends_on).mp
            h2'⟩
        · intro _; trivial

/-- Witness for C3 (amended): a dependency-free request scheduled in the past
on a known client is created QUEUED, matching the right-hand side. -/
theorem C3_amended_witness :
    ∃ st, okCreatedStatus (create_job [] [⟨1, "acme", true⟩] 50 2
        (mkCreateReq 1 (some 40) [])) = some st ∧
      (st = JobStatus.queued ∨ st = JobStatus.pending) ∧
      (st = JobStatus.queued ↔
        (((mkCreateReq 1 (some 40) []).depends_on ≠ [] ∧
            ∀ jd ∈ ([] : Db), jd.id ∈ (mkCreateReq 1 (some 40) []).depends_on →
              jd.status = JobStatus.completed) ∨
         ((mkCreateReq 1 (some 40) []).depends_on = [] ∧
           (mkCreateReq 1 (some 40) []).scheduled_at.getD 50 ≤ 50))) :=
  C3_amended_initial_status [] [⟨1, "acme", true⟩] 50 2
    (mkCreateReq 1 (some 40) []) ⟨1, "acme", true⟩ rfl rfl

/-- C7 (amended).  Creation with an unknown client id is rejected with the 404
NotFound error; creation with a known client and any unknown dependency id is
rejected with a 400 error naming an unknown listed dependency.  In both cases
the result is an error, so no job is created. -/
theorem C7_amended_creation_rejections (db : Db) (clients : List Client)
    (now newId : Nat) (req : CreateJobRequest) :
    (clients.find? (fun cl => cl.id == req.client_id) = none →
      create_job db clients now newId req =
        Except.error ⟨404, "Client not found"⟩) ∧
    (∀ c, clients.find? (fun cl => cl.id == req.client_id) = some c →
      (∃ d ∈ req.depends_on, findJob db d = none) →
      ∃ d ∈ req.depends_on, findJob db d = none ∧
        create_job db clients now newId req =
          Except.error ⟨400, depNotFoundDetail d⟩) := by
  constructor
  · intro h
    simp only [create_job, h]
  · intro c hc hex
    have hsome : (firstMissingDep db req.depends_on).isSome := by
      unfold firstMissingDep
      rw [List.find?_isSome]
      obtain ⟨d, hd1, hd2⟩ := hex
      exact ⟨d, hd1, by simp [hd2]⟩
    obtain ⟨d, hd⟩ := Option.isSome_iff_exists.mp hsome
    refine ⟨d, List.mem_of_find?_eq_some hd, ?_, ?_⟩
    · have h2 := List.find?_some hd
      simpa [Option.isNone_iff_eq_none] using h2
    · simp only [create_job, hc, hd]

/-- Witness for C7 (amended): an unknown client (clients table empty) yields
the 404, and a known client with unknown dependency 7 yields the 400 naming
dependency 7. -/
theorem C7_amended_witness :
    create_job [] [] 0 1 (mkCreateReq 1 none []) =
      Except.error ⟨404, "Client not found"⟩ ∧
    ∃ d ∈ (mkCreateReq 1 none [7]).depends_on, findJob [] d = none ∧
      create_job [] [⟨1, "acme", true⟩] 0 1 (mkCreateReq 1 none [7]) =
        Except.error ⟨400, depNotFoundDetail d⟩ :=
  ⟨(C7_amended_creation_rejections [] [] 0 1 (mkCreateReq 1 none [])).1 rfl,
   (C7_amended_creation_rejections [] [⟨1, "acme", true⟩] 0 1
      (mkCreateReq 1 none [7])).2 ⟨1, "acme", true⟩ rfl
    ⟨7, by decide, rfl⟩⟩

/-- Any path matched by the literal `/automation/jobs/stats` pattern is also
matched by the earlier `/automation/jobs/{job_id}` pattern. -/
theorem statsPattern_implies_paramPattern (p : List String)
    (hp : pathMatches [Seg.lit "automation", Seg.lit "jobs", Seg.lit "stats"]
      p = true) :
    pathMatches [Seg.lit "automation", Seg.lit "jobs", Seg.param] p = true := by
  match p with
  | [a, b, c] =>
    simp only [pathMatches, segMatches, Bool.and_eq_true] at hp ⊢
    exact ⟨hp.1, hp.2.1, True.intro, True.intro⟩
  | [] => simp [pathMatches] at hp
  | [_] => simp [pathMatches, segMatches] at hp
  | [_, _] => simp [pathMatches, segMatches] at hp
  | _ :: _ :: _ :: _ :: _ => simp [pathMatches, segMatches] at hp

/-- C9.  The literal path `/automation/jobs/stats` is dispatched to the
`get_job` route registered earlier, with path parameter `"stats"`, which fails
UUID validation; and no GET request at all is ever dispatched to the
`get_job_stats` handler, so the stats operation is unreachable. -/
theorem C9_stats_route_shadowed :
    dispatchGet ["automation", "jobs", "stats"] =
      DispatchOutcome.validationError ∧
    ∀ path, dispatchGet path ≠ DispatchOutcome.handler "get_job_stats" := by
  constructor
  · decide
  · intro path h
    by_cases h1 :
        pathMatches [Seg.lit "automation", Seg.lit "jobs"] path = true
    · simp [dispatchGet, resolveRoute, automationGetRoutes, List.find?, h1]
        at h
    · by_cases h2 : pathMatches
          [Seg.lit "automation", Seg.lit "jobs", Seg.param] path = true
      · have hres : resolveRoute automationGetRoutes path = some "get_job" := by
          simp [resolveRoute, automationGetRoutes, List.find?, h1, h2]
        simp only [dispatchGet, hres, beq_self_eq_true, if_true] at h
        rcases path with _ | ⟨a, _ | ⟨b, _ | ⟨c, _ | ⟨d, rest⟩⟩⟩⟩
        · simp at h
        · simp at h
        · simp at h
        · by_cases hu : isUUIDString c = true
          · simp [hu] at h
          · simp [hu] at h
        · simp at h
      · have h3 : pathMatches
            [Seg.lit "automation", Seg.lit "jobs", Seg.lit "stats"] path =
              false := by
          cases hq : pathMatches
              [Seg.lit "automation", Seg.lit "jobs", Seg.lit "stats"] path
          · rfl
          · exact absurd (statsPattern_implies_paramPattern path hq) h2
        by_cases h4 : pathMatches
            [Seg.lit "automation", Seg.lit "sessions"] path = true
        · simp [dispatchGet, resolveRoute, automationGetRoutes,
            List.find?, h1, h2, h3, h4] at h
        · simp [dispatchGet, resolveRoute, automationGetRoutes,
            List.find?, h1, h2, h3, h4] at h

/-- Witness for C9: the stats path itself hits UUID validation, and the
concrete path `/automation/jobs` is not dispatched to `get_job_stats`. -/
theorem C9_witness :
    dispatchGet ["automation", "jobs", "stats"] =
      DispatchOutcome.validationError ∧
    dispatchGet ["automation", "jobs"] ≠
      DispatchOutcome.handler "get_job_stats" :=
  ⟨C9_stats_route_shadowed.1, C9_stats_route_shadowed.2 ["automation", "jobs"]⟩

/-- Hour truncation commutes with adding whole hours. -/
theorem hourFloor_add_mul (t k : Nat) :
    Intelligence.hourFloor (t + 60 * k) = Intelligence.hourFloor t + 60 * k := by
  unfold Intelligence.hourFloor
  rw [Nat.add_mul_div_left _ _ (by norm_num : 0 < 60)]
  ring

/-- Unfolding equation of the walk on a busy hour. -/
theorem walkToFree_succ_busy (busy : List Nat) (n t : Nat)
    (hb : busy.contains (Intelligence.hourFloor t) = true) :
    Intelligence.walkToFree busy (n + 1) t =
      Intelligence.walkToFree busy n (t + 60) := by
  have he : Intelligence.walkToFree busy (n + 1) t =
      if busy.contains (Intelligence.hourFloor t) = true then
        Intelligence.walkToFree busy n (t + 60)
      else t := rfl
  rw [he, if_pos hb]

/-- Unfolding equation of the walk on a free hour. -/
theorem walkToFree_succ_free (busy : List Nat) (n t : Nat)
    (hb : busy.contains (Intelligence.hourFloor t) = false) :
    Intelligence.walkToFree busy (n + 1) t = t := by
  have he : Intelligence.walkToFree busy (n + 1) t =
      if busy.contains (Intelligence.hourFloor t) = true then
        Intelligence.walkToFree busy n (t + 60)
      else t := rfl
  rw [he, if_neg]
  rw [hb]
  exact Bool.false_ne_true

/-- The busy-hour walk returns the first probe (in whole-hour steps from `t`)
whose hour is not busy, provided the fuel covers it. -/
theorem walkToFree_spec (busy : List Nat) :
    ∀ fuel t k, k ≤ fuel →
      busy.contains (Intelligence.hourFloor (t + 60 * k)) = false →
      (∀ j < k, busy.contains (Intelligence.hourFloor (t + 60 * j)) = true) →
      Intelligence.walkToFree busy fuel t = t + 60 * k := by
  intro fuel
  induction fuel with
  | zero =>
    intro t k hk hfree _
    have hk0 : k = 0 := Nat.le_zero.mp hk
    subst hk0
    simp [Intelligence.walkToFree]
  | succ n ih =>
    intro t k hk hfree hbusy
    by_cases hb : busy.contains (Intelligence.hourFloor t) = true
    · cases k with
      | zero =>
        simp only [Nat.mul_zero, Nat.add_zero] at hfree
        rw [hfree] at hb
        cases hb
      | succ m =>
        have hstep := walkToFree_succ_busy busy n t hb
        have hfree' : busy.contains
            (Intelligence.hourFloor (t + 60 + 60 * m)) = false := by
          have he : t + 60 + 60 * m = t + 60 * (m + 1) := by ring
          rw [he]
          exact hfree
        have hbusy' : ∀ j < m, busy.contains
            (Intelligence.hourFloor (t + 60 + 60 * j)) = true := by
          intro j hj
          have he : t + 60 + 60 * j = t + 60 * (j + 1) := by ring
          rw [he]
          exact hbusy (j + 1) (by omega)
        rw [hstep, ih (t + 60) m (by omega) hfree' hbusy']
        ring
    · have hb' : busy.contains (Intelligence.hourFloor t) = false :=
        Bool.eq_false_iff.mpr hb
      cases k with
      | zero =>
        rw [walkToFree_succ_free busy n t hb']
        omega
      | succ m =>
        have h0 := hbusy 0 (by omega)
        simp only [Nat.mul_zero, Nat.add_zero] at h0
        rw [h0] at hb'
        cases hb'

/-- Pigeonhole: among `busy.length + 1` successive hour probes starting at
`t`, at least one hour is not in `busy`. -/
theorem exists_free_probe (busy : List Nat) (t : Nat) :
    ∃ k ≤ busy.length,
      busy.contains (Intelligence.hourFloor (t + 60 * k)) = false := by
  by_contra hcon
  push_neg at hcon
  have hall : ∀ k ≤ busy.length, Intelligence.hourFloor t + 60 * k ∈ busy := by
    intro k hk
    have h1 := hcon k hk
    have h2 : busy.contains (Intelligence.hourFloor (t + 60 * k)) = true := by
      cases hx : busy.contains (Intelligence.hourFloor (t + 60 * k))
      · exact absurd hx h1
      · rfl
    rw [hourFloor_add_mul] at h2
    exact List.elem_iff.mp h2
  have hmaps : ∀ k ∈ Finset.range (busy.length + 1),
      (fun k => Intelligence.hourFloor t + 60 * k) k ∈ busy.toFinset := by
    intro k hk
    simp only [Finset.mem_range] at hk
    exact List.mem_toFinset.mpr (hall k (by omega))
  have hinj : Set.InjOn (fun k => Intelligence.hourFloor t + 60 * k)
      (Finset.range (busy.length + 1)) := by
    intro x _ y _ hxy
    simp only at hxy
    omega
  have hcard := Finset.card_le_card_of_injOn _ hmaps hinj
  rw [Finset.card_range] at hcard
  have hle := busy.toFinset_card_le
  omega

/-- C8 (amended).  For every selected client and scheduled job-type, the
endpoint emits a recommendation whose time is reached by walking forward in
whole-hour steps from the candidate `nextRunCandidate` (last COMPLETED run +
type interval, clamped to now + 30 min when that lies in the past, and
now + 1 h when no prior run exists) to the first probe whose hour is not
busy: the recommended time's hour is not busy and every earlier probe's hour
is busy. -/
theorem C8_amended_recommendation (db : Db) (clients : List Client)
    (clientFilter : Option Nat) (jobTypeFilter : Option String)
    (hoursAhead now : Nat) (c : Client) (jt : String)
    (hc : c ∈ Intelligence.selectedClients clients clientFilter)
    (hjt : jt ∈ Intelligence.typesToSchedule jobTypeFilter) :
    ∃ r ∈ Intelligence.buildRecommendations db clients clientFilter
        jobTypeFilter hoursAhead now,
      r.client_id = c.id ∧ r.job_type = jt ∧
      ∃ k, r.recommended_time =
          Intelligence.nextRunCandidate now (Intelligence.lastRunTime db c.id jt)
            (Intelligence.intervalFor jt) + 60 * k ∧
        (Intelligence.busyHours db now (now + 60 * hoursAhead)).contains
          (Intelligence.hourFloor r.recommended_time) = false ∧
        ∀ j < k,
          (Intelligence.busyHours db now (now + 60 * hoursAhead)).contains
            (Intelligence.hourFloor
              (Intelligence.nextRunCandidate now
                  (Intelligence.lastRunTime db c.id jt)
                  (Intelligence.intervalFor jt) + 60 * j)) = true := by
  refine ⟨Intelligence.mkRecommendation
      (Intelligence.busyHours db now (now + 60 * hoursAhead)) now c.id jt
      (Intelligence.lastRunTime db c.id jt), ?_, rfl, rfl, ?_⟩
  · unfold Intelligence.buildRecommendations
    rw [List.mem_flatMap]
    exact ⟨c, hc, List.mem_map_of_mem _ hjt⟩
  · obtain ⟨k0, hk0le, hk0free⟩ := exists_free_probe
      (Intelligence.busyHours db now (now + 60 * hoursAhead))
      (Intelligence.nextRunCandidate now (Intelligence.lastRunTime db c.id jt)
        (Intelligence.intervalFor jt))
    have hex : ∃ k,
        (Intelligence.busyHours db now (now + 60 * hoursAhead)).contains
          (Intelligence.hourFloor
            (Intelligence.nextRunCandidate now
                (Intelligence.lastRunTime db c.id jt)
                (Intelligence.intervalFor jt) + 60 * k)) = false :=
      ⟨k0, hk0free⟩
    have hkfree := Nat.find_spec hex
    have hkmin : ∀ j < Nat.find hex,
        (Intelligence.busyHours db now (now + 60 * hoursAhead)).contains
          (Intelligence.hourFloor
            (Intelligence.nextRunCandidate now
                (Intelligence.lastRunTime db c.id jt)
                (Intelligence.intervalFor jt) + 60 * j)) = true := by
      intro j hj
      have hnot := Nat.find_min hex hj
      cases hx : (Intelligence.busyHours db now (now + 60 * hoursAhead)).contains
          (Intelligence.hourFloor
            (Intelligence.nextRunCandidate now
                (Intelligence.lastRunTime db c.id jt)
                (Intelligence.intervalFor jt) + 60 * j))
      · exact absurd hx hnot
      · rfl
    have hkle : Nat.find hex ≤
        (Intelligence.busyHours db now (now + 60 * hoursAhead)).length :=
      (Nat.find_min' hex hk0free).trans hk0le
    have hwalk := walkToFree_spec
      (Intelligence.busyHours db now (now + 60 * hoursAhead))
      ((Intelligence.busyHours db now (now + 60 * hoursAhead)).length + 1)
      (Intelligence.nextRunCandidate now (Intelligence.lastRunTime db c.id jt)
        (Intelligence.intervalFor jt))
      (Nat.find hex) (by omega) hkfree hkmin
    refine ⟨Nat.find hex, hwalk, ?_, hkmin⟩
    rw [show (Intelligence.mkRecommendation
        (Intelligence.busyHours db now (now + 60 * hoursAhead)) now c.id jt
        (Intelligence.lastRunTime db c.id jt)).recommended_time =
          Intelligence.walkToFree
            (Intelligence.busyHours db now (now + 60 * hoursAhead))
            ((Intelligence.busyHours db now (now + 60 * hoursAhead)).length + 1)
            (Intelligence.nextRunCandidate now
              (Intelligence.lastRunTime db c.id jt)
              (Intelligence.intervalFor jt)) from rfl, hwalk]
    exact hkfree

/-- Witness for C8 (amended): with an empty job table, client 1 and requested
type `menu_sync`, the emitted recommendation satisfies the walk
characterization. -/
theorem C8_amended_witness :
    ∃ r ∈ Intelligence.buildRecommendations [] [⟨1, "acme", true⟩] (some 1)
        (some "menu_sync") 24 0,
      r.client_id = (⟨1, "acme", true⟩ : Client).id ∧ r.job_type = "menu_sync" ∧
      ∃ k, r.recommended_time =
          Intelligence.nextRunCandidate 0 (Intelligence.lastRunTime [] 1 "menu_sync")
            (Intelligence.intervalFor "menu_sync") + 60 * k ∧
        (Intelligence.busyHours [] 0 (0 + 60 * 24)).contains
          (Intelligence.hourFloor r.recommended_time) = false ∧
        ∀ j < k,
          (Intelligence.busyHours [] 0 (0 + 60 * 24)).contains
            (Intelligence.hourFloor
              (Intelligence.nextRunCandidate 0
                  (Intelligence.lastRunTime [] 1 "menu_sync")
                  (Intelligence.intervalFor "menu_sync") + 60 * j)) = true :=
  C8_amended_recommendation [] [⟨1, "acme", true⟩] (some 1) (some "menu_sync")
    24 0 ⟨1, "acme", true⟩ "menu_sync" (by decide) (by decide)

end Automation
